import Mathlib

/-! Verification development for the Apple TV device-session resilience
engine (module tv.py of the intg-appletv package; the legacy flat revision
src/tv.py is embedded separately where a claim cites it).  The session
state, the connect and disconnect operations, the reconnect loop, the
command decorator and the pairing entry point are translated as executable
functions.  The cooperative-task behaviour of the asyncio event loop is
modelled as a small-step transition system whose atomic steps are the
synchronous segments between true suspension points: every callback and
every stretch of code with no genuine await runs to completion without
interleaving, exactly as on a single-threaded event loop. -/

set_option autoImplicit false

namespace IntgAppleTv

/-- Status codes of the ucapi library (ucapi.StatusCodes) used as command
return values by the integration. -/
inductive StatusCodes where
  | OK
  | BAD_REQUEST
  | UNAUTHORIZED
  | NOT_FOUND
  | TIMEOUT
  | CONFLICT
  | SERVER_ERROR
  | NOT_IMPLEMENTED
  | SERVICE_UNAVAILABLE
  deriving DecidableEq

/-- Internal driver events (class EVENTS in tv.py). -/
inductive EVENTS where
  | CONNECTING
  | CONNECTED
  | DISCONNECTED
  | PAIRED
  | ERROR
  | UPDATE
  deriving DecidableEq

/-- Constant BACKOFF_MAX of tv.py (seconds). -/
def BACKOFF_MAX : Nat := 30

/-- Constant BACKOFF_SEC of tv.py (seconds). -/
def BACKOFF_SEC : Nat := 2

/-- The exception kinds distinguished by the except chain of the
async_handle_atvlib_errors decorator in tv.py.  Every constructor stands
for a Python Exception subclass that an awaited library call can raise;
kinds the decorator does not name explicitly fall under otherException,
which stands for the broad except Exception clause.  keyError stands for
the KeyError raised by a failed dictionary lookup inside a verb body
(launch_app). -/
inductive AtvException where
  | timeoutError
  | operationTimeoutError
  | connectionFailedError
  | connectionLostError
  | authenticationError
  | noCredentialsError
  | invalidCredentialsError
  | commandError
  | blockedStateError
  | keyError
  | otherException
  deriving DecidableEq

/-- Outcome of awaiting a wrapped operation: normal return, or a raised
exception of one of the kinds above. -/
inductive OpResult where
  | ok
  | raised (e : AtvException)
  deriving DecidableEq

/-- Connection-lifecycle state of the AppleTv class: the fields set in
AppleTv.__init__ of tv.py that the connect machinery reads and writes.
The device handle self._atv is modelled by its presence (atv);
connectTaskField models the self._connect_task attribute being non-None;
loopTasks counts the connect-loop tasks currently alive on the event loop
(a quantity the Python object does not store explicitly - it is what the
duplicate-loop claim is about); polling models the self._polling poller
task being alive; pendingPushUpdates counts the _process_update coroutines
scheduled by playstatus_update via asyncio.ensure_future that have not run
yet; appList models self._app_list. -/
structure AppleTv where
  isOn : Bool
  atv : Bool
  connectTaskField : Bool
  loopTasks : Nat
  connectionAttempts : Nat
  polling : Bool
  pendingPushUpdates : Nat
  appList : List (String × String)
  deriving DecidableEq

/-- The state right after AppleTv.__init__ of tv.py. -/
def AppleTv.start : AppleTv :=
  { isOn := false, atv := false, connectTaskField := false, loopTasks := 0,
    connectionAttempts := 0, polling := false, pendingPushUpdates := 0,
    appList := [] }

/-- Method _backoff of tv.py, lines 197-201. -/
def backoff (s : AppleTv) : Nat :=
  if s.connectionAttempts * BACKOFF_SEC ≥ BACKOFF_MAX then BACKOFF_MAX
  else s.connectionAttempts * BACKOFF_SEC

/-- Method _stop_polling of tv.py: cancel and clear the poller task if
present (the cancelled task dies at its sleep without emitting). -/
def stop_polling (s : AppleTv) : AppleTv := { s with polling := false }

/-- Method _start_connect_loop of tv.py, lines 318-328: create a new
connect-loop task only when no connect task is recorded, no handle exists
and the logical on-flag is set; creating it emits CONNECTING. -/
def start_connect_loop (s : AppleTv) : AppleTv × List EVENTS :=
  if s.connectTaskField = false ∧ s.atv = false ∧ s.isOn = true then
    ({ s with connectTaskField := true, loopTasks := s.loopTasks + 1 },
     [EVENTS.CONNECTING])
  else (s, [])

/-- Method _handle_disconnect of tv.py, lines 232-239: stop polling,
close and clear the handle if present, emit DISCONNECTED, then try to
restart the connect loop. -/
def handle_disconnect (s : AppleTv) : AppleTv × List EVENTS :=
  let s1 := stop_polling s
  let s2 := { s1 with atv := false }
  let r := start_connect_loop s2
  (r.1, EVENTS.DISCONNECTED :: r.2)

/-- Method connect of tv.py, lines 311-316: idempotent entry point; if the
logical on-flag is already set it returns immediately, otherwise it sets
the flag and schedules the connect loop. -/
def connect (s : AppleTv) : AppleTv × List EVENTS :=
  if s.isOn = true then (s, [])
  else start_connect_loop { s with isOn := true }

/-- Method disconnect of tv.py, lines 411-427: clear the logical on-flag,
stop the poller, close the handle if present, cancel the connect task if
present, emit DISCONNECTED, and (in the finally clause) clear the handle
and task fields.  A cancelled connect-loop task dies at its next
suspension point without emitting anything: either CancelledError is
delivered inside the backoff sleep, or it is swallowed by the
except-CancelledError clause of _connect_once, after which the loop
condition (the on-flag is now false, the handle absent) makes the loop
exit into a tail that dereferences the cleared handle and aborts the task
before any event is emitted.  pendingPushUpdates is untouched: disconnect
has no reference to the anonymous futures created by ensure_future. -/
def disconnect (s : AppleTv) : AppleTv × List EVENTS :=
  let s1 := stop_polling { s with isOn := false }
  let s2 :=
    { s1 with
      atv := false,
      loopTasks := if s1.connectTaskField = true then s1.loopTasks - 1 else s1.loopTasks,
      connectTaskField := false }
  (s2, [EVENTS.DISCONNECTED])

/-- Property is_on of tv.py, lines 185-190: None when no handle exists,
otherwise the logical on-flag. -/
def is_on (s : AppleTv) : Option Bool :=
  if s.atv = false then none else some s.isOn

/-- Possible outcomes of one _connect_once attempt (tv.py lines 361-373):
scan found the device and pyatv.connect opened a handle, the scan found
nothing (no exception), an AuthenticationError, a CancelledError, or any
other exception. -/
inductive ConnectOutcome where
  | success
  | notFound
  | authError
  | cancelled
  | otherError
  deriving DecidableEq

/-- Result of one decorated command call: the translated status code, the
session state and the events emitted during the call, and whether the
wrapped operation body was invoked at all. -/
structure CommandResult where
  status : StatusCodes
  state : AppleTv
  events : List EVENTS
  invoked : Bool
  deriving DecidableEq

/-- The async_handle_atvlib_errors decorator of tv.py, lines 72-134.  If
no handle exists it returns SERVICE_UNAVAILABLE without invoking the
wrapped function.  Otherwise it awaits the function and translates the
outcome: normal return to OK; TimeoutError and OperationTimeoutError to
TIMEOUT; ConnectionFailedError and ConnectionLostError to
SERVICE_UNAVAILABLE; AuthenticationError, NoCredentialsError and
InvalidCredentialsError to UNAUTHORIZED; CommandError to BAD_REQUEST;
BlockedStateError to SERVICE_UNAVAILABLE while additionally running
_handle_disconnect; every other Exception (the broad final clause, which
also catches KeyError) to SERVER_ERROR. -/
def async_handle_atvlib_errors (s : AppleTv) (r : OpResult) : CommandResult :=
  if s.atv = false then
    { status := StatusCodes.SERVICE_UNAVAILABLE, state := s, events := [], invoked := false }
  else
    match r with
    | OpResult.ok =>
        { status := StatusCodes.OK, state := s, events := [], invoked := true }
    | OpResult.raised AtvException.timeoutError =>
        { status := StatusCodes.TIMEOUT, state := s, events := [], invoked := true }
    | OpResult.raised AtvException.operationTimeoutError =>
        { status := StatusCodes.TIMEOUT, state := s, events := [], invoked := true }
    | OpResult.raised AtvException.connectionFailedError =>
        { status := StatusCodes.SERVICE_UNAVAILABLE, state := s, events := [], invoked := true }
    | OpResult.raised AtvException.connectionLostError =>
        { status := StatusCodes.SERVICE_UNAVAILABLE, state := s, events := [], invoked := true }
    | OpResult.raised AtvException.authenticationError =>
        { status := StatusCodes.UNAUTHORIZED, state := s, events := [], invoked := true }
    | OpResult.raised AtvException.noCredentialsError =>
        { status := StatusCodes.UNAUTHORIZED, state := s, events := [], invoked := true }
    | OpResult.raised AtvException.invalidCredentialsError =>
        { status := StatusCodes.UNAUTHORIZED, state := s, events := [], invoked := true }
    | OpResult.raised AtvException.commandError =>
        { status := StatusCodes.BAD_REQUEST, state := s, events := [], invoked := true }
    | OpResult.raised AtvException.blockedStateError =>
        let r2 := handle_disconnect s
        { status := StatusCodes.SERVICE_UNAVAILABLE, state := r2.1, events := r2.2, invoked := true }
    | OpResult.raised AtvException.keyError =>
        { status := StatusCodes.SERVER_ERROR, state := s, events := [], invoked := true }
    | OpResult.raised AtvException.otherException =>
        { status := StatusCodes.SERVER_ERROR, state := s, events := [], invoked := true }

/-- The _commandWrapper of the legacy flat revision (src/tv.py lines
410-418): returns False without calling the operation when no handle
exists, True on success, False on any raised exception (bare except).
First component: the returned boolean; second component: whether the
operation was invoked. -/
def commandWrapper_legacy (atvPresent : Bool) (r : OpResult) : Bool × Bool :=
  if atvPresent = false then (false, false)
  else
    match r with
    | OpResult.ok => (true, true)
    | OpResult.raised _ => (false, true)

/-- Dictionary lookup self._app_list[app_name], as an Option instead of a
KeyError. -/
def lookup_app (l : List (String × String)) (app_name : String) : Option String :=
  (l.find? (fun p => p.1 == app_name)).map (fun p => p.2)

/-- Body of the launch_app verb (tv.py lines 746-749): look the display
name up in the app catalog - a missing key raises KeyError before the
transport call is reached - then launch via the transport.  Second
component: whether the transport launch call was made. -/
def launch_app_body (l : List (String × String)) (app_name : String)
    (transport : OpResult) : OpResult × Bool :=
  match lookup_app l app_name with
  | none => (OpResult.raised AtvException.keyError, false)
  | some _ => (transport, true)

/-- The decorated launch_app verb: the decorator checks the handle before
running the body; the body result is then classified by the decorator.
Second component: whether the transport launch call was made. -/
def launch_app (s : AppleTv) (app_name : String) (transport : OpResult) :
    CommandResult × Bool :=
  if s.atv = false then
    ({ status := StatusCodes.SERVICE_UNAVAILABLE, state := s, events := [], invoked := false },
     false)
  else
    let b := launch_app_body s.appList app_name transport
    (async_handle_atvlib_errors s b.1, b.2)

/-- random.randint lo hi with both bounds inclusive, the source of
randomness made explicit as a seed argument. -/
def randint (lo hi seed : Nat) : Nat := lo + seed % (hi + 1 - lo)

/-- The slice of the pyatv pairing handler state that start_pairing
inspects after pyatv.pair and begin: whether the device shows its own PIN,
and the PIN submitted to the handler so far. -/
structure PairingProcess where
  device_provides_pin : Bool
  submitted : Option Nat
  deriving DecidableEq

/-- Method start_pairing of tv.py, lines 269-286: None when no pairing
target was initialised; the sentinel 0 when the device provides the PIN
(nothing is submitted, enter_pin comes later); otherwise a generated
four-digit PIN, submitted to the handler immediately and returned.  The
returned pair is the integer result together with the pairing handler
state after the call. -/
def start_pairing (pairing_atv : Bool) (proc : PairingProcess) (seed : Nat) :
    Option (Nat × PairingProcess) :=
  if pairing_atv = false then none
  else if proc.device_provides_pin = true then some (0, proc)
  else
    let pin := randint 1000 9999 seed
    some (pin, { proc with submitted := some pin })

/-- The closed status taxonomy of the specification (section 7), written
from the words of the spec for comparison with the range of the
decorator. -/
def spec_status_taxonomy : List StatusCodes :=
  [StatusCodes.OK, StatusCodes.BAD_REQUEST, StatusCodes.UNAUTHORIZED,
   StatusCodes.TIMEOUT, StatusCodes.SERVICE_UNAVAILABLE, StatusCodes.SERVER_ERROR]

/-- Atomic actions of the session transition system.  Each action is one
synchronous segment of event-loop execution: connectCall and
disconnectCall are the public coroutines run to completion (their internal
awaits never yield: _stop_polling contains no await); connectionLost and
connectionClosed are the pyatv DeviceListener callbacks (they may be
delivered even after the handle is gone - _handle_disconnect guards every
dereference); loopIter is one iteration of _connect_loop together with, on
success, its synchronous tail up to the CONNECTED emission; command is one
decorated verb call with the given transport outcome; pollTick is one poll
worker wake-up that emits an UPDATE (possible only while the poller task
is alive and the handle present); pushCallback is playstatus_update
scheduling a _process_update coroutine via ensure_future (only a live
handle delivers push updates); processPushUpdate is one previously
scheduled _process_update coroutine running - it emits UPDATE
unconditionally, since its only handle dereference sits inside a
try-except (the artwork fetch). -/
inductive Action where
  | connectCall
  | disconnectCall
  | connectionLost
  | connectionClosed
  | loopIter (o : ConnectOutcome)
  | command (r : OpResult)
  | pollTick
  | pushCallback
  | processPushUpdate
  deriving DecidableEq

/-- The synchronous tail of _connect_loop after a successful attempt
(tv.py lines 334-359): break out of the loop, clear the task field,
install the push listeners, reset the backoff counter, start the poller
and emit CONNECTED.  The running loop task terminates at the end of the
tail. -/
def connect_loop_success_tail (s : AppleTv) : AppleTv × List EVENTS :=
  ({ s with connectTaskField := false, loopTasks := s.loopTasks - 1,
            connectionAttempts := 0, polling := true },
   [EVENTS.CONNECTED])

/-- One atomic step of the session; none means the action is not enabled
in this state.  The loopIter action requires a live loop task and the
loop condition of tv.py line 332 to hold.  On an AuthenticationError,
_connect_once awaits disconnect of the session itself (tv.py line 367):
disconnect cancels the very loop task that is running, the loop then
exits because the on-flag is false, and the tail aborts on the cleared
handle before emitting anything, so the net effect is exactly that of
disconnect.  On the other failures the attempt counter is incremented and
the task sleeps for the backoff (tv.py lines 336-339). -/
def step (s : AppleTv) (a : Action) : Option (AppleTv × List EVENTS) :=
  match a with
  | Action.connectCall => some (connect s)
  | Action.disconnectCall => some (disconnect s)
  | Action.connectionLost => some (handle_disconnect s)
  | Action.connectionClosed => some (handle_disconnect s)
  | Action.loopIter o =>
      if 1 ≤ s.loopTasks ∧ s.isOn = true ∧ s.atv = false then
        match o with
        | ConnectOutcome.success =>
            some (connect_loop_success_tail { s with atv := true })
        | ConnectOutcome.authError => some (disconnect s)
        | ConnectOutcome.notFound =>
            some ({ s with connectionAttempts := s.connectionAttempts + 1 }, [])
        | ConnectOutcome.cancelled =>
            some ({ s with connectionAttempts := s.connectionAttempts + 1 }, [])
        | ConnectOutcome.otherError =>
            some ({ s with connectionAttempts := s.connectionAttempts + 1 }, [])
      else none
  | Action.command r =>
      let c := async_handle_atvlib_errors s r
      some (c.state, c.events)
  | Action.pollTick =>
      if s.polling = true ∧ s.atv = true then some (s, [EVENTS.UPDATE]) else none
  | Action.pushCallback =>
      if s.atv = true then
        some ({ s with pendingPushUpdates := s.pendingPushUpdates + 1 }, [])
      else none
  | Action.processPushUpdate =>
      if 1 ≤ s.pendingPushUpdates then
        some ({ s with pendingPushUpdates := s.pendingPushUpdates - 1 },
              [EVENTS.UPDATE])
      else none

/-- Run a list of actions from a state, skipping disabled actions and
collecting the emitted events in order. -/
def run (s : AppleTv) (acts : List Action) : AppleTv × List EVENTS :=
  match acts with
  | [] => (s, [])
  | a :: rest =>
      match step s a with
      | none => run s rest
      | some (s2, evs) =>
          let r := run s2 rest
          (r.1, evs ++ r.2)

/-- States reachable from the freshly initialised session. -/
inductive Reachable : AppleTv → Prop where
  | start : Reachable AppleTv.start
  | next {s : AppleTv} {a : Action} {s2 : AppleTv} {evs : List EVENTS} :
      Reachable s → step s a = some (s2, evs) → Reachable s2

/-- Connect-task bookkeeping invariant: the number of live loop tasks is
one exactly when the _connect_task field is set. -/
def TaskInv (s : AppleTv) : Prop :=
  s.loopTasks = if s.connectTaskField = true then 1 else 0

/-- Whenever a handle exists, the logical on-flag is set. -/
def OnInv (s : AppleTv) : Prop :=
  s.atv = true → s.isOn = true

/-- Quiescent shape of the state reached by an explicit disconnect; the
pending push-update count is deliberately not constrained, since
disconnect cannot reach the anonymous futures. -/
def Quiescent (s : AppleTv) : Prop :=
  s.isOn = false ∧ s.atv = false ∧ s.polling = false ∧
  s.connectTaskField = false ∧ s.loopTasks = 0

/-- A concrete connecting state: the result of calling connect on the
fresh session. -/
def connecting_state : AppleTv :=
  { isOn := true, atv := false, connectTaskField := true, loopTasks := 1,
    connectionAttempts := 0, polling := false, pendingPushUpdates := 0,
    appList := [] }

/-- A concrete connected state: the result of one successful connect-loop
iteration from the connecting state. -/
def connected_state : AppleTv :=
  { isOn := true, atv := true, connectTaskField := false, loopTasks := 0,
    connectionAttempts := 0, polling := true, pendingPushUpdates := 0,
    appList := [] }

theorem reachable_connecting : Reachable connecting_state :=
  Reachable.next Reachable.start
    (show step AppleTv.start Action.connectCall
        = some (connecting_state, [EVENTS.CONNECTING]) by decide)

theorem reachable_connected : Reachable connected_state :=
  Reachable.next reachable_connecting
    (show step connecting_state (Action.loopIter ConnectOutcome.success)
        = some (connected_state, [EVENTS.CONNECTED]) by decide)

theorem prod_eq_fst {α β : Type} {x : α × β} {a : α} {b : β}
    (h : x = (a, b)) : a = x.1 := by rw [h]

theorem prod_eq_snd {α β : Type} {x : α × β} {a : α} {b : β}
    (h : x = (a, b)) : b = x.2 := by rw [h]

theorem taskInv_start_connect_loop {s : AppleTv} (hinv : TaskInv s) :
    TaskInv (start_connect_loop s).1 := by
  unfold TaskInv at hinv ⊢
  unfold start_connect_loop
  split
  · next hc =>
      simp only
      rw [hc.1] at hinv
      simp at hinv
      simp [hinv]
  · exact hinv

theorem taskInv_handle_disconnect {s : AppleTv} (hinv : TaskInv s) :
    TaskInv (handle_disconnect s).1 := by
  unfold handle_disconnect
  exact taskInv_start_connect_loop hinv

theorem taskInv_connect {s : AppleTv} (hinv : TaskInv s) :
    TaskInv (connect s).1 := by
  unfold connect
  split
  · exact hinv
  · exact taskInv_start_connect_loop hinv

theorem taskInv_disconnect {s : AppleTv} (hinv : TaskInv s) :
    TaskInv (disconnect s).1 := by
  unfold TaskInv at hinv ⊢
  unfold disconnect stop_polling
  simp only
  split at hinv <;> simp_all

theorem taskInv_step {s : AppleTv} {a : Action} {s2 : AppleTv} {evs : List EVENTS}
    (hinv : TaskInv s) (h : step s a = some (s2, evs)) : TaskInv s2 := by
  cases a with
  | connectCall =>
      simp only [step, Option.some.injEq] at h
      rw [prod_eq_fst h]
      exact taskInv_connect hinv
  | disconnectCall =>
      simp only [step, Option.some.injEq] at h
      rw [prod_eq_fst h]
      exact taskInv_disconnect hinv
  | connectionLost =>
      simp only [step, Option.some.injEq] at h
      rw [prod_eq_fst h]
      exact taskInv_handle_disconnect hinv
  | connectionClosed =>
      simp only [step, Option.some.injEq] at h
      rw [prod_eq_fst h]
      exact taskInv_handle_disconnect hinv
  | loopIter o =>
      simp only [step] at h
      split at h
      · next hg =>
          have hfield : s.connectTaskField = true := by
            unfold TaskInv at hinv
            by_contra hf
            simp [hf] at hinv
            omega
          have htask : s.loopTasks = 1 := by
            unfold TaskInv at hinv
            simp [hfield] at hinv
            exact hinv
          cases o <;> simp only [Option.some.injEq] at h <;> rw [prod_eq_fst h]
          · -- success
            unfold TaskInv connect_loop_success_tail
            simp [htask]
          · -- notFound
            unfold TaskInv at hinv ⊢
            simpa using hinv
          · -- authError
            exact taskInv_disconnect hinv
          · -- cancelled
            unfold TaskInv at hinv ⊢
            simpa using hinv
          · -- otherError
            unfold TaskInv at hinv ⊢
            simpa using hinv
      · exact absurd h (by simp)
  | command r =>
      simp only [step, Option.some.injEq] at h
      rw [prod_eq_fst h]
      simp only
      unfold async_handle_atvlib_errors
      split
      · exact hinv
      · cases r with
        | ok => exact hinv
        | raised e => cases e <;> first
            | exact hinv
            | exact taskInv_handle_disconnect hinv
  | pollTick =>
      simp only [step] at h
      split at h
      · simp only [Option.some.injEq] at h
        rw [prod_eq_fst h]
        exact hinv
      · exact absurd h (by simp)
  | pushCallback =>
      simp only [step] at h
      split at h
      · simp only [Option.some.injEq] at h
        rw [prod_eq_fst h]
        unfold TaskInv at hinv ⊢
        simpa using hinv
      · exact absurd h (by simp)
  | processPushUpdate =>
      simp only [step] at h
      split at h
      · simp only [Option.some.injEq] at h
        rw [prod_eq_fst h]
        unfold TaskInv at hinv ⊢
        simpa using hinv
      · exact absurd h (by simp)

theorem reachable_taskInv {s : AppleTv} (h : Reachable s) : TaskInv s := by
  induction h with
  | start => unfold TaskInv AppleTv.start; simp
  | next _ hstep ih => exact taskInv_step ih hstep

theorem onInv_start_connect_loop {s : AppleTv} (hinv : OnInv s) :
    OnInv (start_connect_loop s).1 := by
  unfold OnInv at hinv ⊢
  unfold start_connect_loop
  split
  · intro ha
    simp at ha
    exact absurd ha (by simp [‹_ ∧ _ ∧ _›.2.1])
  · exact hinv

theorem onInv_handle_disconnect {s : AppleTv} (_hinv : OnInv s) :
    OnInv (handle_disconnect s).1 := by
  unfold handle_disconnect
  apply onInv_start_connect_loop
  intro ha
  simp [stop_polling] at ha

theorem onInv_disconnect {s : AppleTv} :
    OnInv (disconnect s).1 := by
  unfold OnInv disconnect stop_polling
  intro ha
  simp at ha

theorem onInv_step {s : AppleTv} {a : Action} {s2 : AppleTv} {evs : List EVENTS}
    (hinv : OnInv s) (h : step s a = some (s2, evs)) : OnInv s2 := by
  cases a with
  | connectCall =>
      simp only [step, Option.some.injEq] at h
      rw [prod_eq_fst h]
      unfold connect
      split
      · exact hinv
      · apply onInv_start_connect_loop
        intro _
        simp
  | disconnectCall =>
      simp only [step, Option.some.injEq] at h
      rw [prod_eq_fst h]
      exact onInv_disconnect
  | connectionLost =>
      simp only [step, Option.some.injEq] at h
      rw [prod_eq_fst h]
      exact onInv_handle_disconnect hinv
  | connectionClosed =>
      simp only [step, Option.some.injEq] at h
      rw [prod_eq_fst h]
      exact onInv_handle_disconnect hinv
  | loopIter o =>
      simp only [step] at h
      split at h
      · next hg =>
          cases o <;> simp only [Option.some.injEq] at h <;> rw [prod_eq_fst h]
          · unfold OnInv connect_loop_success_tail
            intro _
            simpa using hg.2.1
          · unfold OnInv at hinv ⊢
            intro ha
            simp at ha
            exact hinv ha
          · exact onInv_disconnect
          · unfold OnInv at hinv ⊢
            intro ha
            simp at ha
            exact hinv ha
          · unfold OnInv at hinv ⊢
            intro ha
            simp at ha
            exact hinv ha
      · exact absurd h (by simp)
  | command r =>
      simp only [step, Option.some.injEq] at h
      rw [prod_eq_fst h]
      simp only
      unfold async_handle_atvlib_errors
      split
      · exact hinv
      · cases r with
        | ok => exact hinv
        | raised e => cases e <;> first
            | exact hinv
            | exact onInv_handle_disconnect hinv
  | pollTick =>
      simp only [step] at h
      split at h
      · simp only [Option.some.injEq] at h
        rw [prod_eq_fst h]
        exact hinv
      · exact absurd h (by simp)
  | pushCallback =>
      simp only [step] at h
      split at h
      · simp only [Option.some.injEq] at h
        rw [prod_eq_fst h]
        unfold OnInv at hinv ⊢
        intro ha
        simp at ha
        exact hinv ha
      · exact absurd h (by simp)
  | processPushUpdate =>
      simp only [step] at h
      split at h
      · simp only [Option.some.injEq] at h
        rw [prod_eq_fst h]
        unfold OnInv at hinv ⊢
        intro ha
        simp at ha
        exact hinv ha
      · exact absurd h (by simp)

theorem reachable_onInv {s : AppleTv} (h : Reachable s) : OnInv s := by
  induction h with
  | start => unfold OnInv AppleTv.start; intro ha; simp at ha
  | next _ hstep ih => exact onInv_step ih hstep

theorem quiescent_disconnect {s : AppleTv} (hinv : TaskInv s) :
    Quiescent (disconnect s).1 := by
  unfold Quiescent disconnect stop_polling
  unfold TaskInv at hinv
  refine ⟨by simp, by simp, by simp, by simp, ?_⟩
  simp only
  split at hinv <;> simp_all

theorem quiescent_step {s : AppleTv} {a : Action} {s2 : AppleTv} {evs : List EVENTS}
    (hq : Quiescent s) (hna : a ≠ Action.connectCall)
    (h : step s a = some (s2, evs)) :
    Quiescent s2 ∧ ∀ e ∈ evs, e ≠ EVENTS.CONNECTED := by
  obtain ⟨h1, h2, h3, h4, h5⟩ := hq
  cases a with
  | connectCall => exact absurd rfl hna
  | disconnectCall =>
      simp only [step, Option.some.injEq] at h
      constructor
      · rw [prod_eq_fst h]
        exact quiescent_disconnect (by unfold TaskInv; rw [h5, h4]; simp)
      · rw [prod_eq_snd h]
        unfold disconnect
        simp
  | connectionLost =>
      simp only [step, Option.some.injEq] at h
      constructor
      · rw [prod_eq_fst h]
        simp [Quiescent, handle_disconnect, start_connect_loop, stop_polling, h1, h4, h5]
      · rw [prod_eq_snd h]
        simp [handle_disconnect, start_connect_loop, stop_polling, h1]
  | connectionClosed =>
      simp only [step, Option.some.injEq] at h
      constructor
      · rw [prod_eq_fst h]
        simp [Quiescent, handle_disconnect, start_connect_loop, stop_polling, h1, h4, h5]
      · rw [prod_eq_snd h]
        simp [handle_disconnect, start_connect_loop, stop_polling, h1]
  | loopIter o =>
      simp only [step] at h
      rw [if_neg (by simp [h1])] at h
      exact absurd h (by simp)
  | command r =>
      simp only [step, Option.some.injEq] at h
      have hc : async_handle_atvlib_errors s r =
          { status := StatusCodes.SERVICE_UNAVAILABLE, state := s, events := [],
            invoked := false } := by
        unfold async_handle_atvlib_errors
        rw [if_pos h2]
      rw [hc] at h
      constructor
      · rw [prod_eq_fst h]
        exact ⟨h1, h2, h3, h4, h5⟩
      · rw [prod_eq_snd h]
        simp
  | pollTick =>
      simp only [step] at h
      rw [if_neg (by simp [h3])] at h
      exact absurd h (by simp)
  | pushCallback =>
      simp only [step] at h
      rw [if_neg (by simp [h2])] at h
      exact absurd h (by simp)
  | processPushUpdate =>
      simp only [step] at h
      split at h
      · simp only [Option.some.injEq] at h
        constructor
        · rw [prod_eq_fst h]
          exact ⟨h1, h2, h3, h4, h5⟩
        · rw [prod_eq_snd h]
          simp
      · exact absurd h (by simp)

theorem quiescent_run {s : AppleTv} (hq : Quiescent s) (acts : List Action)
    (hna : Action.connectCall ∉ acts) :
    ∀ e ∈ (run s acts).2, e ≠ EVENTS.CONNECTED := by
  induction acts generalizing s with
  | nil =>
      intro e he
      simp [run] at he
  | cons a rest ih =>
      have hhead : a ≠ Action.connectCall := by
        intro hcontra
        exact hna (hcontra ▸ List.mem_cons_self a rest)
      have htail : Action.connectCall ∉ rest := fun hmem => hna (List.mem_cons_of_mem a hmem)
      intro e he
      rw [show run s (a :: rest)
            = match step s a with
              | none => run s rest
              | some (s2, evs) =>
                  let r := run s2 rest
                  (r.1, evs ++ r.2) from rfl] at he
      cases hstep : step s a with
      | none =>
          rw [hstep] at he
          exact ih hq htail e he
      | some p =>
          obtain ⟨s2, evs⟩ := p
          rw [hstep] at he
          simp only [List.mem_append] at he
          obtain ⟨hq2, hevs⟩ := quiescent_step hq hhead hstep
          cases he with
          | inl hl => exact hevs e hl
          | inr hr => exact ih hq2 htail e hr

/-- In a quiescent state with no pending push-update coroutine, no action
other than a new connect emits UPDATE or CONNECTED. -/
theorem quiescent_step_noPending {s : AppleTv} {a : Action} {s2 : AppleTv}
    {evs : List EVENTS}
    (hq : Quiescent s) (hp : s.pendingPushUpdates = 0)
    (hna : a ≠ Action.connectCall) (h : step s a = some (s2, evs)) :
    (Quiescent s2 ∧ s2.pendingPushUpdates = 0)
    ∧ ∀ e ∈ evs, e ≠ EVENTS.UPDATE ∧ e ≠ EVENTS.CONNECTED := by
  obtain ⟨h1, h2, h3, h4, h5⟩ := hq
  cases a with
  | connectCall => exact absurd rfl hna
  | disconnectCall =>
      simp only [step, Option.some.injEq] at h
      refine ⟨⟨?_, ?_⟩, ?_⟩
      · rw [prod_eq_fst h]
        exact quiescent_disconnect (by unfold TaskInv; rw [h5, h4]; simp)
      · rw [prod_eq_fst h]
        unfold disconnect stop_polling
        simpa using hp
      · rw [prod_eq_snd h]
        unfold disconnect
        simp
  | connectionLost =>
      simp only [step, Option.some.injEq] at h
      refine ⟨⟨?_, ?_⟩, ?_⟩
      · rw [prod_eq_fst h]
        simp [Quiescent, handle_disconnect, start_connect_loop, stop_polling, h1, h4, h5]
      · rw [prod_eq_fst h]
        simp [handle_disconnect, start_connect_loop, stop_polling, h1, hp]
      · rw [prod_eq_snd h]
        simp [handle_disconnect, start_connect_loop, stop_polling, h1]
  | connectionClosed =>
      simp only [step, Option.some.injEq] at h
      refine ⟨⟨?_, ?_⟩, ?_⟩
      · rw [prod_eq_fst h]
        simp [Quiescent, handle_disconnect, start_connect_loop, stop_polling, h1, h4, h5]
      · rw [prod_eq_fst h]
        simp [handle_disconnect, start_connect_loop, stop_polling, h1, hp]
      · rw [prod_eq_snd h]
        simp [handle_disconnect, start_connect_loop, stop_polling, h1]
  | loopIter o =>
      simp only [step] at h
      rw [if_neg (by simp [h1])] at h
      exact absurd h (by simp)
  | command r =>
      simp only [step, Option.some.injEq] at h
      have hc : async_handle_atvlib_errors s r =
          { status := StatusCodes.SERVICE_UNAVAILABLE, state := s, events := [],
            invoked := false } := by
        unfold async_handle_atvlib_errors
        rw [if_pos h2]
      rw [hc] at h
      refine ⟨⟨?_, ?_⟩, ?_⟩
      · rw [prod_eq_fst h]; exact ⟨h1, h2, h3, h4, h5⟩
      · rw [prod_eq_fst h]; exact hp
      · rw [prod_eq_snd h]; simp
  | pollTick =>
      simp only [step] at h
      rw [if_neg (by simp [h3])] at h
      exact absurd h (by simp)
  | pushCallback =>
      simp only [step] at h
      rw [if_neg (by simp [h2])] at h
      exact absurd h (by simp)
  | processPushUpdate =>
      simp only [step] at h
      rw [if_neg (by simp [hp])] at h
      exact absurd h (by simp)

theorem quiescent_run_noPending {s : AppleTv}
    (hq : Quiescent s) (hp : s.pendingPushUpdates = 0) (acts : List Action)
    (hna : Action.connectCall ∉ acts) :
    ∀ e ∈ (run s acts).2, e ≠ EVENTS.UPDATE ∧ e ≠ EVENTS.CONNECTED := by
  induction acts generalizing s with
  | nil =>
      intro e he
      simp [run] at he
  | cons a rest ih =>
      have hhead : a ≠ Action.connectCall := by
        intro hcontra
        exact hna (hcontra ▸ List.mem_cons_self a rest)
      have htail : Action.connectCall ∉ rest := fun hmem => hna (List.mem_cons_of_mem a hmem)
      intro e he
      rw [show run s (a :: rest)
            = match step s a with
              | none => run s rest
              | some (s2, evs) =>
                  let r := run s2 rest
                  (r.1, evs ++ r.2) from rfl] at he
      cases hstep : step s a with
      | none =>
          rw [hstep] at he
          exact ih hq hp htail e he
      | some p =>
          obtain ⟨s2, evs⟩ := p
          rw [hstep] at he
          simp only [List.mem_append] at he
          obtain ⟨⟨hq2, hp2⟩, hevs⟩ := quiescent_step_noPending hq hp hhead hstep
          cases he with
          | inl hl => exact hevs e hl
          | inr hr => exact ih hq2 hp2 htail e hr

/-- Claim C1 (command safety): for every command verb of the device
session, when no device handle exists the decorated call returns
SERVICE_UNAVAILABLE without invoking the wrapped operation, without
changing the state and without emitting events; and for every session
state and every operation outcome the decorator returns a status code
from the closed taxonomy - no exception reaches the caller, since every
Exception kind, the catch-all included, is translated.  The legacy
revision's _commandWrapper likewise returns False without invoking the
operation when the handle is absent, for every outcome. -/
theorem C1_command_safety (s : AppleTv) (r : OpResult) (h : s.atv = false) :
    (async_handle_atvlib_errors s r).status = StatusCodes.SERVICE_UNAVAILABLE
    ∧ (async_handle_atvlib_errors s r).invoked = false
    ∧ (async_handle_atvlib_errors s r).state = s
    ∧ (async_handle_atvlib_errors s r).events = []
    ∧ (∀ t : AppleTv, ∀ q : OpResult,
        (async_handle_atvlib_errors t q).status ∈ spec_status_taxonomy)
    ∧ (∀ q : OpResult, commandWrapper_legacy false q = (false, false)) := by
  refine ⟨?_, ?_, ?_, ?_, ?_, ?_⟩
  · simp [async_handle_atvlib_errors, h]
  · simp [async_handle_atvlib_errors, h]
  · simp [async_handle_atvlib_errors, h]
  · simp [async_handle_atvlib_errors, h]
  · intro t q
    unfold async_handle_atvlib_errors spec_status_taxonomy
    split
    · simp
    · cases q with
      | ok => simp
      | raised e => cases e <;> simp
  · intro q
    simp [commandWrapper_legacy]

theorem C1_command_safety_witness :
    (async_handle_atvlib_errors AppleTv.start OpResult.ok).status
      = StatusCodes.SERVICE_UNAVAILABLE
    ∧ (async_handle_atvlib_errors AppleTv.start OpResult.ok).invoked = false :=
  ⟨(C1_command_safety AppleTv.start OpResult.ok rfl).1,
   (C1_command_safety AppleTv.start OpResult.ok rfl).2.1⟩

/-- Claim C2 (status taxonomy while a handle exists): with a handle
present, success maps to OK, both timeout kinds to TIMEOUT, a dropped or
unreachable connection to SERVICE_UNAVAILABLE, authentication and
missing/invalid-credential failures to UNAUTHORIZED, a device rejection
of the specific command to BAD_REQUEST, a blocked-link state to
SERVICE_UNAVAILABLE while additionally running the exact state change and
event emission of _handle_disconnect - the same path an unsolicited
connection_lost callback takes - and any other exception to SERVER_ERROR;
the returned status always lies in the closed six-element set. -/
theorem C2_command_status_taxonomy (s : AppleTv) (h : s.atv = true) :
    (async_handle_atvlib_errors s OpResult.ok).status = StatusCodes.OK
    ∧ (async_handle_atvlib_errors s (OpResult.raised AtvException.timeoutError)).status
        = StatusCodes.TIMEOUT
    ∧ (async_handle_atvlib_errors s (OpResult.raised AtvException.operationTimeoutError)).status
        = StatusCodes.TIMEOUT
    ∧ (async_handle_atvlib_errors s (OpResult.raised AtvException.connectionFailedError)).status
        = StatusCodes.SERVICE_UNAVAILABLE
    ∧ (async_handle_atvlib_errors s (OpResult.raised AtvException.connectionLostError)).status
        = StatusCodes.SERVICE_UNAVAILABLE
    ∧ (async_handle_atvlib_errors s (OpResult.raised AtvException.authenticationError)).status
        = StatusCodes.UNAUTHORIZED
    ∧ (async_handle_atvlib_errors s (OpResult.raised AtvException.noCredentialsError)).status
        = StatusCodes.UNAUTHORIZED
    ∧ (async_handle_atvlib_errors s (OpResult.raised AtvException.invalidCredentialsError)).status
        = StatusCodes.UNAUTHORIZED
    ∧ (async_handle_atvlib_errors s (OpResult.raised AtvException.commandError)).status
        = StatusCodes.BAD_REQUEST
    ∧ (async_handle_atvlib_errors s (OpResult.raised AtvException.blockedStateError)).status
        = StatusCodes.SERVICE_UNAVAILABLE
    ∧ ((async_handle_atvlib_errors s (OpResult.raised AtvException.blockedStateError)).state,
       (async_handle_atvlib_errors s (OpResult.raised AtvException.blockedStateError)).events)
        = handle_disconnect s
    ∧ step s Action.connectionLost = some (handle_disconnect s)
    ∧ (async_handle_atvlib_errors s (OpResult.raised AtvException.keyError)).status
        = StatusCodes.SERVER_ERROR
    ∧ (async_handle_atvlib_errors s (OpResult.raised AtvException.otherException)).status
        = StatusCodes.SERVER_ERROR
    ∧ (∀ r : OpResult, (async_handle_atvlib_errors s r).status ∈ spec_status_taxonomy) := by
  refine ⟨?_, ?_, ?_, ?_, ?_, ?_, ?_, ?_, ?_, ?_, ?_, rfl, ?_, ?_, ?_⟩
  · simp [async_handle_atvlib_errors, h]
  · simp [async_handle_atvlib_errors, h]
  · simp [async_handle_atvlib_errors, h]
  · simp [async_handle_atvlib_errors, h]
  · simp [async_handle_atvlib_errors, h]
  · simp [async_handle_atvlib_errors, h]
  · simp [async_handle_atvlib_errors, h]
  · simp [async_handle_atvlib_errors, h]
  · simp [async_handle_atvlib_errors, h]
  · simp [async_handle_atvlib_errors, h]
  · simp [async_handle_atvlib_errors, h]
  · simp [async_handle_atvlib_errors, h]
  · simp [async_handle_atvlib_errors, h]
  · intro r
    unfold async_handle_atvlib_errors spec_status_taxonomy
    split
    · simp
    · cases r with
      | ok => simp
      | raised e => cases e <;> simp

theorem C2_command_status_taxonomy_witness :
    (async_handle_atvlib_errors connected_state OpResult.ok).status = StatusCodes.OK
    ∧ (async_handle_atvlib_errors connected_state
        (OpResult.raised AtvException.commandError)).status = StatusCodes.BAD_REQUEST :=
  ⟨(C2_command_status_taxonomy connected_state rfl).1,
   (C2_command_status_taxonomy connected_state rfl).2.2.2.2.2.2.2.2.1⟩

/-- Claim C3 (backoff linear and capped): the computed reconnect delay
equals min of attempts times BACKOFF_SEC and BACKOFF_MAX; it is
monotone in the attempt counter and never exceeds BACKOFF_MAX, which is
30 seconds; and the successful loop iteration resets the attempt counter
to zero, so the delay sequence restarts from its base value. -/
theorem C3_backoff_linear_capped (s t : AppleTv)
    (hmono : s.connectionAttempts ≤ t.connectionAttempts)
    (hguard : 1 ≤ s.loopTasks ∧ s.isOn = true ∧ s.atv = false) :
    backoff s = min (s.connectionAttempts * BACKOFF_SEC) BACKOFF_MAX
    ∧ backoff s ≤ backoff t
    ∧ backoff s ≤ BACKOFF_MAX
    ∧ BACKOFF_MAX = 30
    ∧ (step s (Action.loopIter ConnectOutcome.success)).map
        (fun p => p.1.connectionAttempts) = some 0 := by
  have key : ∀ u : AppleTv,
      backoff u = min (u.connectionAttempts * BACKOFF_SEC) BACKOFF_MAX := by
    intro u
    unfold backoff BACKOFF_SEC BACKOFF_MAX
    split <;> omega
  refine ⟨key s, ?_, ?_, rfl, ?_⟩
  · rw [key s, key t]
    unfold BACKOFF_SEC BACKOFF_MAX
    omega
  · rw [key s]
    unfold BACKOFF_SEC BACKOFF_MAX
    omega
  · simp only [step]
    rw [if_pos hguard]
    simp [connect_loop_success_tail]

theorem C3_backoff_linear_capped_witness :
    backoff connecting_state
      = min (connecting_state.connectionAttempts * BACKOFF_SEC) BACKOFF_MAX
    ∧ backoff connecting_state ≤ BACKOFF_MAX :=
  ⟨(C3_backoff_linear_capped connecting_state connecting_state
      (Nat.le_refl _) (by decide)).1,
   (C3_backoff_linear_capped connecting_state connecting_state
      (Nat.le_refl _) (by decide)).2.2.1⟩

/-- Claim C4 (at most one reconnect-loop task): every reachable session
state has at most one live connect-loop task; _start_connect_loop refuses
to schedule whenever a loop task is recorded, a handle exists or the
on-flag is down; and for the concrete double-disconnect scenario, a
connection_lost callback from the connected state leaves one live loop
task and a second connection_lost before the loop makes progress still
leaves exactly one. -/
theorem C4_single_reconnect_task (s : AppleTv) (hs : Reachable s) :
    s.loopTasks ≤ 1
    ∧ (∀ t : AppleTv, (t.connectTaskField = true ∨ t.atv = true ∨ t.isOn = false) →
        start_connect_loop t = (t, []))
    ∧ step connected_state Action.connectionLost
        = some (handle_disconnect connected_state)
    ∧ (handle_disconnect connected_state).1.loopTasks = 1
    ∧ (step (handle_disconnect connected_state).1 Action.connectionLost).map
        (fun p => p.1.loopTasks) = some 1 := by
  refine ⟨?_, ?_, rfl, by decide, by decide⟩
  · have hinv := reachable_taskInv hs
    unfold TaskInv at hinv
    split at hinv <;> omega
  · intro t ht
    have hneg : ¬(t.connectTaskField = false ∧ t.atv = false ∧ t.isOn = true) := by
      rcases ht with hh | hh | hh <;> simp [hh]
    unfold start_connect_loop
    rw [if_neg hneg]

theorem C4_single_reconnect_task_witness :
    AppleTv.start.loopTasks ≤ 1 :=
  (C4_single_reconnect_task AppleTv.start Reachable.start).1

/-- A session state with no handle, no loop task, no poller and the
on-flag down is a fixed point of disconnect: a second call returns the
identical state and emits DISCONNECTED again. -/
theorem disconnect_fixed {u : AppleTv}
    (h1 : u.isOn = false) (h2 : u.atv = false) (h3 : u.polling = false)
    (h4 : u.connectTaskField = false) :
    disconnect u = (u, [EVENTS.DISCONNECTED]) := by
  obtain ⟨i, a2, f, lt, ca, p, pp, al⟩ := u
  dsimp only at h1 h2 h3 h4
  subst h1
  subst h2
  subst h3
  subst h4
  simp [disconnect, stop_polling]

/-- The connected state with one push-update coroutine scheduled by
playstatus_update but not yet run. -/
def push_pending_state : AppleTv :=
  { connected_state with pendingPushUpdates := 1 }

theorem reachable_push_pending : Reachable push_pending_state :=
  Reachable.next reachable_connected
    (show step connected_state Action.pushCallback
        = some (push_pending_state, []) by decide)

/-- Claim C5 counterexample: a push update received while connected
schedules a _process_update coroutine; if disconnect runs before that
coroutine, the coroutine still emits one UPDATE afterwards (its emit at
the end of _process_update is unconditional and its only handle
dereference is wrapped in a try-except), so an UPDATE event is emitted
after disconnect returned and before any new connect call - refuting the
claim that no further Update event is emitted.  The post-disconnect state
is exhibited as reachable. -/
theorem C5_disconnect_counterexample :
    Reachable (disconnect push_pending_state).1
    ∧ (disconnect push_pending_state).2 = [EVENTS.DISCONNECTED]
    ∧ (run (disconnect push_pending_state).1 [Action.processPushUpdate]).2
        = [EVENTS.UPDATE] := by
  exact ⟨Reachable.next reachable_push_pending
      (show step push_pending_state Action.disconnectCall
          = some ((disconnect push_pending_state).1,
                  (disconnect push_pending_state).2) by decide),
    by decide, by decide⟩

/-- Claim C5 amended (disconnect cancels everything): after disconnect
from any reachable state the on-flag is false, the poller and any
in-flight reconnect task are cancelled and cleared, the handle is closed
and cleared, a DISCONNECTED event has been emitted, disconnect is
idempotent (a second call returns the identical state) and total, and
until a new connect call no further CONNECTED event is emitted by any
enabled action; moreover, when no push-update coroutine was pending at
disconnect time, no further UPDATE event is emitted either.  The
unamended claim fails only on that last point: a _process_update
coroutine scheduled before the disconnect still emits one UPDATE
afterwards. -/
theorem C5_disconnect_cancels_everything (s : AppleTv) (acts : List Action)
    (hs : Reachable s) (hacts : Action.connectCall ∉ acts) :
    (disconnect s).1.isOn = false
    ∧ (disconnect s).1.polling = false
    ∧ (disconnect s).1.atv = false
    ∧ (disconnect s).1.connectTaskField = false
    ∧ (disconnect s).1.loopTasks = 0
    ∧ (disconnect s).2 = [EVENTS.DISCONNECTED]
    ∧ disconnect ((disconnect s).1) = ((disconnect s).1, [EVENTS.DISCONNECTED])
    ∧ (∀ e ∈ (run (disconnect s).1 acts).2, e ≠ EVENTS.CONNECTED)
    ∧ (s.pendingPushUpdates = 0 →
        ∀ e ∈ (run (disconnect s).1 acts).2,
          e ≠ EVENTS.UPDATE ∧ e ≠ EVENTS.CONNECTED) := by
  have hq : Quiescent (disconnect s).1 := quiescent_disconnect (reachable_taskInv hs)
  obtain ⟨q1, q2, q3, q4, q5⟩ := hq
  refine ⟨q1, q3, q2, q4, q5, rfl, disconnect_fixed q1 q2 q3 q4, ?_, ?_⟩
  · exact quiescent_run ⟨q1, q2, q3, q4, q5⟩ acts hacts
  · intro hp
    have hp2 : (disconnect s).1.pendingPushUpdates = 0 := hp
    exact quiescent_run_noPending ⟨q1, q2, q3, q4, q5⟩ hp2 acts hacts

theorem C5_disconnect_cancels_everything_witness :
    (disconnect AppleTv.start).1.isOn = false
    ∧ (disconnect AppleTv.start).2 = [EVENTS.DISCONNECTED] :=
  ⟨(C5_disconnect_cancels_everything AppleTv.start [] Reachable.start
      (by decide)).1,
   (C5_disconnect_cancels_everything AppleTv.start [] Reachable.start
      (by decide)).2.2.2.2.2.1⟩

/-- Claim C6 (connect failure semantics): while a connect loop runs, an
AuthenticationError in the attempt has exactly the effect of disconnect -
the on-flag goes false, the loop task is gone and the task field cleared,
DISCONNECTED is emitted, and the scheduler would refuse to re-enter the
loop from the resulting state - whereas every other failure outcome
leaves the loop task alive with the attempt counter incremented (retried
under backoff while the on-flag stays true); and every attempt outcome
yields a defined step, so no connect failure escapes as an exception. -/
theorem C6_connect_failure_policy (s : AppleTv)
    (hs : Reachable s)
    (hguard : 1 ≤ s.loopTasks ∧ s.isOn = true ∧ s.atv = false) :
    step s (Action.loopIter ConnectOutcome.authError) = some (disconnect s)
    ∧ (disconnect s).1.isOn = false
    ∧ (disconnect s).1.loopTasks = 0
    ∧ (disconnect s).1.connectTaskField = false
    ∧ (disconnect s).2 = [EVENTS.DISCONNECTED]
    ∧ start_connect_loop (disconnect s).1 = ((disconnect s).1, [])
    ∧ (∀ o, (o = ConnectOutcome.notFound ∨ o = ConnectOutcome.cancelled ∨
          o = ConnectOutcome.otherError) →
        step s (Action.loopIter o)
          = some ({ s with connectionAttempts := s.connectionAttempts + 1 }, []))
    ∧ (∀ o, (step s (Action.loopIter o)).isSome = true) := by
  have hq : Quiescent (disconnect s).1 := quiescent_disconnect (reachable_taskInv hs)
  obtain ⟨q1, q2, q3, q4, q5⟩ := hq
  refine ⟨?_, q1, q5, q4, rfl, ?_, ?_, ?_⟩
  · simp only [step]
    rw [if_pos hguard]
  · unfold start_connect_loop
    rw [if_neg (by simp [q1])]
  · intro o ho
    rcases ho with rfl | rfl | rfl <;> (simp only [step]; rw [if_pos hguard])
  · intro o
    cases o <;> (simp only [step]; rw [if_pos hguard]) <;> simp

theorem C6_connect_failure_policy_witness :
    step connecting_state (Action.loopIter ConnectOutcome.authError)
      = some (disconnect connecting_state) :=
  (C6_connect_failure_policy connecting_state reachable_connecting (by decide)).1

theorem connect_isOn (t : AppleTv) : (connect t).1.isOn = true := by
  unfold connect
  split
  · next ht => simpa using ht
  · unfold start_connect_loop
    split <;> simp

theorem connect_on {u : AppleTv} (h : u.isOn = true) : connect u = (u, []) := by
  unfold connect
  rw [if_pos h]

/-- Claim C7 (idempotent connect): calling connect while the session is
already logically on returns the state unchanged and emits nothing - no
network operation, no new reconnect task, no additional CONNECTING or
CONNECTED event; consequently a second consecutive connect call is always
a no-op, so two calls have the observable effect of one. -/
theorem C7_idempotent_connect (s : AppleTv) (h : s.isOn = true) :
    connect s = (s, [])
    ∧ (∀ t : AppleTv, connect (connect t).1 = ((connect t).1, [])) :=
  ⟨connect_on h, fun t => connect_on (connect_isOn t)⟩

theorem C7_idempotent_connect_witness :
    connect connecting_state = (connecting_state, []) :=
  (C7_idempotent_connect connecting_state rfl).1

/-- Claim C8 (startPairing PIN contract): with an initialised pairing
target, if the pairing handler reports that the device provides the PIN
the call returns the sentinel 0 and submits nothing (awaiting a later
enter_pin); otherwise it generates a pseudo-random PIN in the inclusive
range 1000 to 9999, submits it to the handler immediately and returns
that same value.  Without an initialised pairing target the call returns
None. -/
theorem C8_start_pairing_pin (proc : PairingProcess) (seed : Nat) :
    (proc.device_provides_pin = true →
       start_pairing true proc seed = some (0, proc))
    ∧ (proc.device_provides_pin = false →
       start_pairing true proc seed
         = some (randint 1000 9999 seed,
                 { proc with submitted := some (randint 1000 9999 seed) })
       ∧ 1000 ≤ randint 1000 9999 seed ∧ randint 1000 9999 seed ≤ 9999)
    ∧ start_pairing false proc seed = none := by
  refine ⟨?_, ?_, rfl⟩
  · intro hp
    unfold start_pairing
    simp [hp]
  · intro hp
    refine ⟨?_, ?_, ?_⟩
    · unfold start_pairing
      simp [hp]
    · unfold randint
      omega
    · unfold randint
      omega

theorem C8_start_pairing_pin_witness :
    start_pairing true { device_provides_pin := true, submitted := none } 0
      = some (0, { device_provides_pin := true, submitted := none })
    ∧ 1000 ≤ randint 1000 9999 123456 ∧ randint 1000 9999 123456 ≤ 9999 :=
  ⟨(C8_start_pairing_pin { device_provides_pin := true, submitted := none } 0).1 rfl,
   ((C8_start_pairing_pin { device_provides_pin := false, submitted := none }
       123456).2.1 rfl).2.1,
   ((C8_start_pairing_pin { device_provides_pin := false, submitted := none }
       123456).2.1 rfl).2.2⟩

/-- Claim C9 counterexample: the state reached by an explicit disconnect
from the connected state is reachable, and on it is_on returns none
rather than some false - contradicting the claim that the query returns
false exactly when the session was explicitly disconnected.  The
disconnect clears the handle, so the query answers with the no-handle
value none. -/
theorem C9_is_on_counterexample :
    Reachable (disconnect connected_state).1
    ∧ is_on (disconnect connected_state).1 = none
    ∧ ¬ is_on (disconnect connected_state).1 = some false := by
  exact ⟨Reachable.next reachable_connected
      (show step connected_state Action.disconnectCall
          = some ((disconnect connected_state).1,
                  (disconnect connected_state).2) by decide),
    by decide, by decide⟩

/-- Claim C9 amended (three-valued is_on): is_on returns none exactly
when no handle exists - both before the first successful connect and
after an explicit disconnect, which clears the handle; when a handle
exists it returns the logical on-flag; and in every reachable state a
handle implies the flag is up, so a live handle reads as some true. -/
theorem C9_is_on_amended (s : AppleTv) :
    (is_on s = none ↔ s.atv = false)
    ∧ (s.atv = true → is_on s = some s.isOn)
    ∧ (Reachable s → s.atv = true → is_on s = some true) := by
  refine ⟨?_, ?_, ?_⟩
  · cases hatv : s.atv with
    | false => simp [is_on, hatv]
    | true => simp [is_on, hatv]
  · intro hatv
    simp [is_on, hatv]
  · intro hr hatv
    simp [is_on, hatv, reachable_onInv hr hatv]

theorem C9_is_on_amended_witness :
    is_on AppleTv.start = none
    ∧ is_on connected_state = some true :=
  ⟨(C9_is_on_amended AppleTv.start).1.mpr rfl,
   (C9_is_on_amended connected_state).2.2 reachable_connected rfl⟩

/-- Claim C10 (unknown app name): calling launch_app with a name that is
not a key of the app catalog while a handle exists raises KeyError in
the verb body before the transport call; the decorator's catch-all maps
it to SERVER_ERROR - not BAD_REQUEST - with no transport launch call, no
state change, no events, and no exception to the caller. -/
theorem C10_launch_app_unknown (s : AppleTv) (app_name : String) (r : OpResult)
    (hatv : s.atv = true) (hmiss : lookup_app s.appList app_name = none) :
    (launch_app s app_name r).1.status = StatusCodes.SERVER_ERROR
    ∧ ¬ (launch_app s app_name r).1.status = StatusCodes.BAD_REQUEST
    ∧ (launch_app s app_name r).2 = false
    ∧ (launch_app s app_name r).1.state = s
    ∧ (launch_app s app_name r).1.events = [] := by
  refine ⟨?_, ?_, ?_, ?_, ?_⟩ <;>
    simp [launch_app, launch_app_body, async_handle_atvlib_errors, hatv, hmiss]

theorem C10_launch_app_unknown_witness :
    (launch_app connected_state "Netflix" OpResult.ok).1.status
      = StatusCodes.SERVER_ERROR
    ∧ (launch_app connected_state "Netflix" OpResult.ok).2 = false :=
  ⟨(C10_launch_app_unknown connected_state "Netflix" OpResult.ok rfl rfl).1,
   (C10_launch_app_unknown connected_state "Netflix" OpResult.ok rfl rfl).2.2.1⟩

end IntgAppleTv
